import Mathlib

/-!
Verification development for the SEND repository: a two-peer file transfer
application consisting of a WebSocket signaling relay (several deployment
variants), a TURN credential cache with a monthly usage guard, and a chunked
file transfer protocol over a WebRTC data channel.

Each component is shallowly embedded: the mutable JS state becomes an explicit
state record, each event handler becomes a step function from state and event
to the new state plus the list of messages the handler sends, and a run
function folds a step function over a list of events.
-/

namespace Send

/-! ### Protocol constants

From src/public/js (sender module) and the worker / usage-guard sources. -/

/-- Chunk size used by the sender (16 KiB). -/
def CHUNK_SIZE : Nat := 16384

/-- Backpressure high-water mark on outstanding unsent bytes (1 MiB). -/
def HIGH_WATER_MARK : Nat := 1048576

/-- Backpressure low-water mark / `bufferedAmountLowThreshold` (256 KiB). -/
def LOW_WATER_MARK : Nat := 262144

/-- Credential cache TTL in ms (23 hours, src/worker.js). -/
def ICE_CACHE_TTL : Nat := 23 * 60 * 60 * 1000

/-- Usage guard cache TTL in ms (1 hour, src/usage-guard.js). -/
def CACHE_TTL_MS : Nat := 60 * 60 * 1000

/-- Monthly TURN usage cap in GB (src/usage-guard.js). -/
def TURN_MONTHLY_LIMIT_GB : Rat := 900

/-- Hard-coded STUN-only fallback ICE server list (src/worker.js). -/
def FALLBACK_ICE : List String :=
  ["stun:stun.l.google.com:19302", "stun:stun1.l.google.com:19302"]

/-! ### Signaling relay: Node `ws` variants (src/server.js and src/server/index.js)

Participant connection handles are modelled as `Nat`. Session identifiers are
`String` (the JS `if (!sessionId) return` falsiness test becomes an emptiness
test). The JS `Map` of rooms is modelled as a total function from identifiers
to participant lists, with the absent entry and the empty set conflated: in
the source a room is created non-empty (join inserts then immediately adds)
and deleted as soon as it becomes empty, so an empty room is observationally
identical to an absent one in every handler.

`readyState === 1` checks on sends are modelled by a fixed predicate
`rs : Nat → Bool` giving each handle's transport openness. -/

/-- Messages a relay can send to a connection handle. -/
inductive SrvOut where
  | errorMsg (m : String)
  | receiverJoined
  | peerJoined
  | peerDisconnected
  | peerLeft
  | relayed (payload : String)
deriving DecidableEq, Repr

/-- Inbound events on a relay. `malformed ws` stands for delivery of a frame
on which `JSON.parse` throws, i.e. the `catch { return }` branch of the
message handler. `signal ws payload` is a parsed offer / answer /
ice-candidate frame, whose body the relay treats as opaque. -/
inductive SrvEv where
  | join (ws : Nat) (sid : String)
  | signal (ws : Nat) (payload : String)
  | malformed (ws : Nat)
  | closeEv (ws : Nat)
  | errorEv (ws : Nat)
deriving DecidableEq, Repr

/-- Relay state: the room map plus each connection's `currentRoom` /
`ws.roomId` variable. -/
structure SrvState where
  rooms : String → List Nat
  curr : Nat → Option String

/-- Initial relay state: no rooms, no connection assigned to a room. -/
def initSrv : SrvState := ⟨fun _ => [], fun _ => none⟩

/-- `rooms.set(sid, r)`. -/
def setRoom (s : SrvState) (sid : String) (r : List Nat) : SrvState :=
  { s with rooms := fun x => if x = sid then r else s.rooms x }

/-- Assignment to the per-connection room variable. -/
def setCurr (s : SrvState) (ws : Nat) (v : Option String) : SrvState :=
  { s with curr := fun w => if w = ws then v else s.curr w }

/-- `room.forEach(peer => if (peer !== ws && peer.readyState === 1) peer.send(m))`. -/
def notifyPeers (rs : Nat → Bool) (room : List Nat) (ws : Nat) (m : SrvOut) :
    List (Nat × SrvOut) :=
  (room.filter (fun p => p ≠ ws && rs p)).map (fun p => (p, m))

/-- One event of the src/server.js relay. Mirrors the `ws.on('message')`,
`ws.on('close')` and `ws.on('error')` handlers: join checks capacity before
adding (rejecting with a `room-full` error sent to the joiner only), notifies
the existing peer with `receiver-joined` when the room reaches two members,
signaling frames are forwarded to every other open room member, malformed
frames are ignored, close removes the member and sends `peer-disconnected`
to every remaining open member, and the error handler only logs. -/
def serverStep (rs : Nat → Bool) (s : SrvState) (e : SrvEv) :
    SrvState × List (Nat × SrvOut) :=
  match e with
  | .join ws sid =>
    if sid = "" then (s, [])
    else
      let room := s.rooms sid
      if 2 ≤ room.length then (s, [(ws, .errorMsg "room-full")])
      else
        let room2 := if ws ∈ room then room else room ++ [ws]
        let s2 := setCurr (setRoom s sid room2) ws (some sid)
        let outs := if room2.length = 2 then notifyPeers rs room2 ws .receiverJoined else []
        (s2, outs)
  | .signal ws payload =>
    match s.curr ws with
    | none => (s, [])
    | some r => (s, notifyPeers rs (s.rooms r) ws (.relayed payload))
  | .malformed _ => (s, [])
  | .closeEv ws =>
    match s.curr ws with
    | none => (s, [])
    | some r =>
      let room2 := (s.rooms r).filter (fun p => p ≠ ws)
      (setRoom s r room2, (room2.filter rs).map (fun p => (p, SrvOut.peerDisconnected)))
  | .errorEv _ => (s, [])

/-- One event of the src/server/index.js relay variant. Differences from
src/server.js: the rejection message text is `Room is full`, the join
notification is `peer-joined` and is sent to **all** room members (including
the joiner, with no readyState guard), the disconnect notification is
`peer-left` (no readyState guard), and no error listener is registered. -/
def serverIndexStep (rs : Nat → Bool) (s : SrvState) (e : SrvEv) :
    SrvState × List (Nat × SrvOut) :=
  match e with
  | .join ws rid =>
    if rid = "" then (s, [])
    else
      let room := s.rooms rid
      if 2 ≤ room.length then (s, [(ws, .errorMsg "Room is full")])
      else
        let room2 := if ws ∈ room then room else room ++ [ws]
        let s2 := setCurr (setRoom s rid room2) ws (some rid)
        let outs := if room2.length = 2 then room2.map (fun p => (p, SrvOut.peerJoined)) else []
        (s2, outs)
  | .signal ws payload =>
    match s.curr ws with
    | none => (s, [])
    | some r => (s, notifyPeers rs (s.rooms r) ws (.relayed payload))
  | .malformed _ => (s, [])
  | .closeEv ws =>
    match s.curr ws with
    | none => (s, [])
    | some r =>
      let room2 := (s.rooms r).filter (fun p => p ≠ ws)
      (setRoom s r room2, room2.map (fun p => (p, SrvOut.peerLeft)))
  | .errorEv _ => (s, [])

/-- Fold the src/server.js step over a list of events, collecting all sent
messages in order. -/
def runServer (rs : Nat → Bool) (s : SrvState) : List SrvEv → SrvState × List (Nat × SrvOut)
  | [] => (s, [])
  | e :: es =>
    let p := serverStep rs s e
    let q := runServer rs p.1 es
    (q.1, p.2 ++ q.2)

/-! ### Signaling relay: Cloudflare Durable Object variant (SignalingRoom)

One `SignalingRoom` instance exists per session identifier, so its state is
just the `sessions` array. Its relay path never parses payloads: every
message is forwarded verbatim (`peer.send(event.data)`) to the other peer. -/

/-- SignalingRoom state: the `sessions` array (at most two sockets). -/
structure SigState where
  sessions : List Nat
deriving DecidableEq, Repr

/-- Messages the SignalingRoom sends: the HTTP 409 `room-full` rejection of a
third upgrade request, the `receiver-joined` and `peer-disconnected`
notifications, and verbatim forwarding of a raw inbound frame. -/
inductive SigOut where
  | roomFull409
  | receiverJoined
  | peerDisconnected
  | forwardRaw (data : String)
deriving DecidableEq, Repr

/-- Events on a SignalingRoom: a WebSocket upgrade request (`fetch` +
`handleSession`), a raw inbound frame, and the close / error listeners. -/
inductive SigEv where
  | connect (ws : Nat)
  | message (ws : Nat) (data : String)
  | closeEv (ws : Nat)
  | errorEv (ws : Nat)
deriving DecidableEq, Repr

/-- One event of the SignalingRoom Durable Object. `connect` mirrors
`fetch` (capacity check, 409 rejection) followed by `handleSession` (push,
notify `sessions[0]` with `receiver-joined` when this is the second peer);
`message` forwards the raw frame to every other session member; `close`
removes the socket and notifies every remaining member; `error` removes the
socket without notifying. Sends are wrapped in try/catch in the source, so
the output list records attempted sends. -/
def sigStep (s : SigState) (e : SigEv) : SigState × List (Nat × SigOut) :=
  match e with
  | .connect ws =>
    if 2 ≤ s.sessions.length then (s, [(ws, .roomFull409)])
    else
      let outs := if s.sessions.length = 1
        then s.sessions.map (fun a => (a, SigOut.receiverJoined)) else []
      (⟨s.sessions ++ [ws]⟩, outs)
  | .message ws data =>
    (s, (s.sessions.filter (fun p => p ≠ ws)).map (fun p => (p, SigOut.forwardRaw data)))
  | .closeEv ws =>
    let rest := s.sessions.filter (fun p => p ≠ ws)
    (⟨rest⟩, rest.map (fun p => (p, SigOut.peerDisconnected)))
  | .errorEv ws =>
    (⟨s.sessions.filter (fun p => p ≠ ws)⟩, [])

/-- Empty SignalingRoom. -/
def initSig : SigState := ⟨[]⟩

/-- Fold `sigStep` over a list of events, collecting attempted sends. -/
def runSig (s : SigState) : List SigEv → SigState × List (Nat × SigOut)
  | [] => (s, [])
  | e :: es =>
    let p := sigStep s e
    let q := runSig p.1 es
    (q.1, p.2 ++ q.2)

/-! ### Room capacity invariant (claim C1) -/

/-- Every room of the Node relay holds at most two participants. -/
def RoomsBounded (s : SrvState) : Prop := ∀ sid, (s.rooms sid).length ≤ 2

lemma serverStep_bounded (rs : Nat → Bool) (s : SrvState) (e : SrvEv)
    (h : RoomsBounded s) : RoomsBounded ((serverStep rs s e).1) := by
  intro sid
  cases e with
  | join ws sid2 =>
    by_cases h1 : sid2 = ""
    · simpa [serverStep, h1] using h sid
    · by_cases h2 : 2 ≤ (s.rooms sid2).length
      · simpa [serverStep, h1, h2] using h sid
      · by_cases h3 : sid = sid2
        · subst h3
          have h4 := h sid
          by_cases h5 : ws ∈ s.rooms sid
          · simpa [serverStep, h1, h2, setCurr, setRoom, h5] using h4
          · simp [serverStep, h1, h2, setCurr, setRoom, h5]
            omega
        · simpa [serverStep, h1, h2, setCurr, setRoom, h3] using h sid
  | signal ws payload =>
    cases hc : s.curr ws with
    | none => simpa [serverStep, hc] using h sid
    | some r => simpa [serverStep, hc] using h sid
  | malformed ws => simpa [serverStep] using h sid
  | closeEv ws =>
    cases hc : s.curr ws with
    | none => simpa [serverStep, hc] using h sid
    | some r =>
      simp only [serverStep, hc, setRoom]
      by_cases h3 : sid = r
      · subst h3
        simp only [if_pos rfl]
        exact le_trans (List.length_filter_le _ _) (h sid)
      · simpa [h3] using h sid
  | errorEv ws => simpa [serverStep] using h sid

lemma runServer_bounded (rs : Nat → Bool) (evs : List SrvEv) :
    ∀ s : SrvState, RoomsBounded s → RoomsBounded ((runServer rs s evs).1) := by
  induction evs with
  | nil => intro s h; simpa [runServer] using h
  | cons e es ih =>
    intro s h
    simpa [runServer] using ih _ (serverStep_bounded rs s e h)

lemma sigStep_bounded (s : SigState) (e : SigEv)
    (h : s.sessions.length ≤ 2) : ((sigStep s e).1).sessions.length ≤ 2 := by
  cases e with
  | connect ws =>
    by_cases h2 : 2 ≤ s.sessions.length
    · simpa [sigStep, h2] using h
    · simp only [sigStep, h2, if_false]
      simp only [List.length_append, List.length_cons, List.length_nil]
      omega
  | message ws data => simpa [sigStep] using h
  | closeEv ws =>
    simp only [sigStep]
    exact le_trans (List.length_filter_le _ _) h
  | errorEv ws =>
    simp only [sigStep]
    exact le_trans (List.length_filter_le _ _) h

lemma runSig_bounded (evs : List SigEv) :
    ∀ s : SigState, s.sessions.length ≤ 2 → ((runSig s evs).1).sessions.length ≤ 2 := by
  induction evs with
  | nil => intro s h; simpa [runSig] using h
  | cons e es ih =>
    intro s h
    simpa [runSig] using ih _ (sigStep_bounded s e h)

/-- Claim C1: for every sequence of join and leave operations against the same
session identifier, the participant set never exceeds 2 members, in both the
Node relay (src/server.js) and the Durable Object (SignalingRoom); and a join
attempted while 2 participants are present is rejected with a room-full error
sent only to the rejected participant, leaving the state (in particular the
existing participant set) completely unchanged. -/
theorem c1_room_capacity :
    (∀ (rs : Nat → Bool) (evs : List SrvEv) (sid : String),
      ((runServer rs initSrv evs).1.rooms sid).length ≤ 2)
    ∧ (∀ (rs : Nat → Bool) (s : SrvState) (sid : String) (ws : Nat),
      sid ≠ "" → 2 ≤ (s.rooms sid).length →
      serverStep rs s (.join ws sid) = (s, [(ws, .errorMsg "room-full")]))
    ∧ (∀ (evs : List SigEv), ((runSig initSig evs).1).sessions.length ≤ 2)
    ∧ (∀ (s : SigState) (ws : Nat), 2 ≤ s.sessions.length →
      sigStep s (.connect ws) = (s, [(ws, .roomFull409)])) := by
  refine ⟨?_, ?_, ?_, ?_⟩
  · intro rs evs sid
    exact runServer_bounded rs evs initSrv (fun _ => by simp [initSrv]) sid
  · intro rs s sid ws h1 h2
    simp [serverStep, h1, h2]
  · intro evs
    exact runSig_bounded evs initSig (by simp [initSig])
  · intro s ws h2
    simp [sigStep, h2]

/-- Witness for C1 at concrete inputs: a session with two admitted
participants stays at two, and a third join is rejected with the room-full
error to the joiner only, with the state unchanged. -/
theorem c1_room_capacity_witness :
    ((runServer (fun _ => true) initSrv
        [.join 1 "r", .join 2 "r", .join 3 "r"]).1.rooms "r").length ≤ 2
    ∧ serverStep (fun _ => true)
        ⟨fun x => if x = "r" then [1, 2] else [], fun _ => none⟩ (.join 3 "r")
      = (⟨fun x => if x = "r" then [1, 2] else [], fun _ => none⟩,
         [(3, .errorMsg "room-full")])
    ∧ ((runSig initSig [.connect 1, .connect 2, .connect 3]).1).sessions.length ≤ 2
    ∧ sigStep ⟨[1, 2]⟩ (.connect 3) = (⟨[1, 2]⟩, [(3, .roomFull409)]) :=
  ⟨c1_room_capacity.1 (fun _ => true) [.join 1 "r", .join 2 "r", .join 3 "r"] "r",
   c1_room_capacity.2.1 (fun _ => true)
     ⟨fun x => if x = "r" then [1, 2] else [], fun _ => none⟩ "r" 3
     (by decide) (by decide),
   c1_room_capacity.2.2.1 [.connect 1, .connect 2, .connect 3],
   c1_room_capacity.2.2.2 ⟨[1, 2]⟩ 3 (by decide)⟩

/-! ### Join notifications (claim C5) -/

/-- Counterexample to claim C5 as stated: in the src/server.js relay, when the
second participant (handle 2) is admitted to session `r`, the complete output
trace of the run contains a `receiver-joined` notification for the first
participant only — the newly admitted participant receives no notification at
all. -/
theorem c5_counterexample :
    (runServer (fun _ => true) initSrv [.join 1 "r", .join 2 "r"]).2
      = [(1, SrvOut.receiverJoined)]
    ∧ (runServer (fun _ => true) initSrv [.join 1 "r", .join 2 "r"]).2.filter
        (fun o => o.1 == 2) = [] := by
  constructor <;> rfl

/-- Claim C5 amended: when the second join is admitted, the already-present
participant always receives a notification (`receiver-joined` in src/server.js
and in the Durable Object, `peer-joined` in src/server/index.js); the newly
admitted participant is notified only in the src/server/index.js variant,
whose join handler sends `peer-joined` to both room members. -/
theorem c5_second_join_notify (rs : Nat → Bool) (s : SrvState) (sid : String)
    (a ws : Nat) (h1 : sid ≠ "") (h2 : s.rooms sid = [a]) (h3 : a ≠ ws)
    (h4 : rs a = true) :
    ((serverStep rs s (.join ws sid)).2 = [(a, .receiverJoined)]
      ∧ (serverStep rs s (.join ws sid)).1.rooms sid = [a, ws])
    ∧ ((serverIndexStep rs s (.join ws sid)).2 = [(a, .peerJoined), (ws, .peerJoined)]
      ∧ (serverIndexStep rs s (.join ws sid)).1.rooms sid = [a, ws])
    ∧ sigStep ⟨[a]⟩ (.connect ws) = (⟨[a, ws]⟩, [(a, .receiverJoined)]) := by
  have hws : ws ≠ a := Ne.symm h3
  have h5 : ¬ (ws ∈ s.rooms sid) := by simp [h2, hws]
  have h6 : ¬ (2 ≤ (s.rooms sid).length) := by simp [h2]
  refine ⟨⟨?_, ?_⟩, ⟨?_, ?_⟩, ?_⟩
  · simp [serverStep, h1, h2, h5, h6, hws, notifyPeers, List.filter, h3, h4]
  · simp [serverStep, h1, h2, h5, h6, hws, setCurr, setRoom]
  · simp [serverIndexStep, h1, h2, h5, h6, hws]
  · simp [serverIndexStep, h1, h2, h5, h6, hws, setCurr, setRoom]
  · rfl

/-- Witness for C5 amended, at concrete inputs (existing participant 1,
joiner 2, session `r`). -/
theorem c5_second_join_notify_witness :
    ((serverStep (fun _ => true)
        ⟨fun x => if x = "r" then [1] else [], fun _ => none⟩ (.join 2 "r")).2
      = [(1, .receiverJoined)]
      ∧ (serverStep (fun _ => true)
          ⟨fun x => if x = "r" then [1] else [], fun _ => none⟩ (.join 2 "r")).1.rooms "r"
        = [1, 2])
    ∧ ((serverIndexStep (fun _ => true)
        ⟨fun x => if x = "r" then [1] else [], fun _ => none⟩ (.join 2 "r")).2
      = [(1, .peerJoined), (2, .peerJoined)]
      ∧ (serverIndexStep (fun _ => true)
          ⟨fun x => if x = "r" then [1] else [], fun _ => none⟩ (.join 2 "r")).1.rooms "r"
        = [1, 2])
    ∧ sigStep ⟨[1]⟩ (.connect 2) = (⟨[1, 2]⟩, [(1, .receiverJoined)]) :=
  c5_second_join_notify (fun _ => true)
    ⟨fun x => if x = "r" then [1] else [], fun _ => none⟩ "r" 1 2
    (by decide) (by decide) (by decide) (by decide)

/-! ### Disconnect notifications (claim C6) -/

/-- Claim C6: in a 2-participant session, a departure — close alone, or error
followed by close on the same handle — delivers exactly one `peer-disconnected`
notification to the remaining open participant, in both the src/server.js
relay (whose error handler only logs, so removal and notification happen once,
on close) and the Durable Object (whose error listener removes the socket
without notifying, making the close listener's removal idempotent); and a
departure from a 1-participant session delivers zero notifications. -/
theorem c6_disconnect_notification :
    (∀ (rs : Nat → Bool) (s : SrvState) (sid : String) (a b : Nat),
      s.curr a = some sid → s.rooms sid = [a, b] → a ≠ b → rs b = true →
      (runServer rs s [.closeEv a]).2 = [(b, .peerDisconnected)]
      ∧ (runServer rs s [.errorEv a, .closeEv a]).2 = [(b, .peerDisconnected)])
    ∧ (∀ (rs : Nat → Bool) (s : SrvState) (sid : String) (a : Nat),
      s.curr a = some sid → s.rooms sid = [a] →
      (runServer rs s [.closeEv a]).2 = []
      ∧ (runServer rs s [.errorEv a, .closeEv a]).2 = [])
    ∧ (∀ (a b : Nat), a ≠ b →
      (runSig ⟨[a, b]⟩ [.closeEv a]).2 = [(b, .peerDisconnected)]
      ∧ (runSig ⟨[a, b]⟩ [.errorEv a, .closeEv a]).2 = [(b, .peerDisconnected)]
      ∧ (runSig ⟨[a]⟩ [.closeEv a]).2 = []) := by
  refine ⟨?_, ?_, ?_⟩
  · intro rs s sid a b hc hr hab hb
    have hba : b ≠ a := fun h => hab h.symm
    constructor <;>
      simp [runServer, serverStep, hc, hr, List.filter, hba, hb]
  · intro rs s sid a hc hr
    constructor <;> simp [runServer, serverStep, hc, hr, List.filter]
  · intro a b hab
    have hba : b ≠ a := fun h => hab h.symm
    refine ⟨?_, ?_, ?_⟩ <;> simp [runSig, sigStep, List.filter, hba]

/-- Witness for C6 at concrete inputs: participants 1 and 2 in session `r`;
participant 1 departs (with and without a preceding error event). -/
theorem c6_disconnect_notification_witness :
    ((runServer (fun _ => true)
        ⟨fun x => if x = "r" then [1, 2] else [], fun w => if w = 1 then some "r" else none⟩
        [.closeEv 1]).2 = [(2, .peerDisconnected)]
      ∧ (runServer (fun _ => true)
        ⟨fun x => if x = "r" then [1, 2] else [], fun w => if w = 1 then some "r" else none⟩
        [.errorEv 1, .closeEv 1]).2 = [(2, .peerDisconnected)])
    ∧ ((runSig ⟨[1, 2]⟩ [.errorEv 1, .closeEv 1]).2 = [(2, .peerDisconnected)]
      ∧ (runSig ⟨[1]⟩ [.closeEv 1]).2 = []) :=
  ⟨c6_disconnect_notification.1 (fun _ => true)
      ⟨fun x => if x = "r" then [1, 2] else [], fun w => if w = 1 then some "r" else none⟩
      "r" 1 2 (by decide) (by decide) (by decide) (by decide),
   (c6_disconnect_notification.2.2 1 2 (by decide)).2.1,
   (c6_disconnect_notification.2.2 1 2 (by decide)).2.2⟩

/-! ### Malformed frames (claim C7) -/

/-- Counterexample to claim C7 as stated: the Durable Object relay never
parses inbound frames — `handleSession` forwards `event.data` verbatim — so a
non-parseable frame (here the literal `not-json`) delivered by participant 1
IS forwarded to the other participant rather than dropped at the relay. -/
theorem c7_counterexample :
    sigStep ⟨[1, 2]⟩ (.message 1 "not-json")
      = (⟨[1, 2]⟩, [(2, SigOut.forwardRaw "not-json")]) := by
  rfl

/-- Claim C7 amended: in the Node relays (src/server.js, src/server/index.js)
a frame on which `JSON.parse` throws is dropped silently — the state is
unchanged, nothing is forwarded, no error is sent back, and the connection is
left open; in the Durable Object variant the relay is parse-blind and forwards
every frame, parseable or not, verbatim to the other participant. -/
theorem c7_malformed_frames (rs : Nat → Bool) (s : SrvState) (t : SigState)
    (ws a b : Nat) (data : String) (h1 : t.sessions = [a, b]) (h2 : a ≠ b) :
    serverStep rs s (.malformed ws) = (s, [])
    ∧ serverIndexStep rs s (.malformed ws) = (s, [])
    ∧ sigStep t (.message a data) = (t, [(b, .forwardRaw data)]) := by
  have hba : b ≠ a := fun h => h2 h.symm
  refine ⟨rfl, rfl, ?_⟩
  simp [sigStep, h1, List.filter, hba]

/-- Witness for C7 amended, at concrete inputs. -/
theorem c7_malformed_frames_witness :
    serverStep (fun _ => true) initSrv (.malformed 1) = (initSrv, [])
    ∧ serverIndexStep (fun _ => true) initSrv (.malformed 1) = (initSrv, [])
    ∧ sigStep ⟨[1, 2]⟩ (.message 1 "x") = (⟨[1, 2]⟩, [(2, .forwardRaw "x")]) :=
  c7_malformed_frames (fun _ => true) initSrv ⟨[1, 2]⟩ 1 1 2 "x" (by decide) (by decide)

/-! ### Receiver state machine (src/public/js/receiver.js)

`initReceiver` keeps `fileMeta` (initially null), the `chunks` array and the
`receivedBytes` counter. The control channel handler reacts to `file-meta`
and `file-complete`; the file channel handler appends each binary chunk.
Chunk payloads are modelled as byte lists. In JS, reading `fileMeta.mimeType`
while `fileMeta` is null throws a TypeError; the embedding makes that
fallible step explicit as the `nullMetaAccess` outcome. -/

/-- The `file-meta` record: logical name, declared total size, content type. -/
structure FileMeta where
  name : String
  size : Nat
  mimeType : String
deriving DecidableEq, Repr

/-- Receiver-side mutable state. -/
structure RecvState where
  fileMeta : Option FileMeta
  chunks : List (List Nat)
  receivedBytes : Nat
deriving DecidableEq, Repr

/-- Outcome of one control-channel message. `incompleteError` is the
`showError` path naming the received and expected byte counts; `completed`
is the assembled blob (chunks concatenated in receipt order) handed off for
download under the metadata's name and content type; `nullMetaAccess` is the
TypeError thrown by `fileMeta.mimeType` when no metadata record exists. -/
inductive RecvResult where
  | ok (s : RecvState)
  | incompleteError (received expected : Nat) (s : RecvState)
  | completed (blob : List Nat) (name mimeType : String)
  | nullMetaAccess
deriving DecidableEq, Repr

/-- Control-channel messages of the transfer protocol. -/
inductive CtrlMsg where
  | fileMetaMsg (m : FileMeta)
  | fileCompleteMsg
deriving DecidableEq, Repr

/-- The control channel `onmessage` handler. On `file-meta` the record is
stored. On `file-complete`, the guard `fileMeta && receivedBytes !==
fileMeta.size` raises the incomplete-transfer error; otherwise the handler
assembles the blob, which reads `fileMeta.mimeType` — a null dereference when
no `file-meta` was ever received. -/
def onControl (s : RecvState) (m : CtrlMsg) : RecvResult :=
  match m with
  | .fileMetaMsg meta => .ok { s with fileMeta := some meta }
  | .fileCompleteMsg =>
    match s.fileMeta with
    | some meta =>
      if s.receivedBytes ≠ meta.size then
        .incompleteError s.receivedBytes meta.size s
      else
        .completed s.chunks.flatten meta.name meta.mimeType
    | none => .nullMetaAccess

/-- The file channel `onmessage` handler: push the chunk, add its byte length
to the running counter. -/
def onFileChunk (s : RecvState) (data : List Nat) : RecvState :=
  { s with chunks := s.chunks ++ [data], receivedBytes := s.receivedBytes + data.length }

/-! ### Completion integrity check (claims C2 and C10) -/

/-- Claim C2: once a `file-meta` record is present, processing `file-complete`
accepts the transfer exactly when the accumulated received-byte total equals
the declared size; on any mismatch the receiver raises the incomplete-transfer
error carrying both the received and the expected byte counts, and produces no
assembled file; on equality it assembles the chunks in receipt order and
exposes them under the declared name and content type. -/
theorem c2_completion_integrity (s : RecvState) (meta : FileMeta)
    (h : s.fileMeta = some meta) :
    (s.receivedBytes ≠ meta.size →
      onControl s .fileCompleteMsg = .incompleteError s.receivedBytes meta.size s
      ∧ ∀ (blob : List Nat) (n mt : String),
          onControl s .fileCompleteMsg ≠ .completed blob n mt)
    ∧ (s.receivedBytes = meta.size →
      onControl s .fileCompleteMsg = .completed s.chunks.flatten meta.name meta.mimeType) := by
  constructor
  · intro hne
    constructor
    · simp [onControl, h, hne]
    · intro blob n mt
      simp [onControl, h, hne]
  · intro heq
    simp [onControl, h, heq]

/-- Witness for C2: a transfer declaring 4 bytes. With 3 bytes received the
incomplete error names 3 and 4 and nothing is assembled; with 4 bytes received
the chunks are assembled in order. -/
theorem c2_completion_integrity_witness :
    (onControl ⟨some ⟨"f.bin", 4, "application/octet-stream"⟩, [[10, 11, 12]], 3⟩
        .fileCompleteMsg
      = .incompleteError 3 4 ⟨some ⟨"f.bin", 4, "application/octet-stream"⟩, [[10, 11, 12]], 3⟩
      ∧ onControl ⟨some ⟨"f.bin", 4, "application/octet-stream"⟩, [[10, 11, 12]], 3⟩
          .fileCompleteMsg ≠ .completed [10, 11, 12] "f.bin" "application/octet-stream")
    ∧ onControl ⟨some ⟨"f.bin", 4, "application/octet-stream"⟩, [[10, 11], [12, 13]], 4⟩
        .fileCompleteMsg
      = .completed [10, 11, 12, 13] "f.bin" "application/octet-stream" :=
  ⟨⟨((c2_completion_integrity _ _ rfl).1 (by decide)).1,
    ((c2_completion_integrity _ _ rfl).1 (by decide)).2 [10, 11, 12] "f.bin"
      "application/octet-stream"⟩,
   (c2_completion_integrity ⟨some ⟨"f.bin", 4, "application/octet-stream"⟩,
      [[10, 11], [12, 13]], 4⟩ _ rfl).2 (by decide)⟩

/-- Claim C10: if `file-complete` is processed before any `file-meta` record
has been received, the byte-count verification is skipped — the incomplete
error cannot be raised in that run, whatever was received — and the handler
proceeds into assembly, which dereferences the absent metadata record
(`fileMeta.mimeType` on null). -/
theorem c10_complete_before_meta (s : RecvState) (h : s.fileMeta = none) :
    onControl s .fileCompleteMsg = .nullMetaAccess
    ∧ ∀ (r e : Nat) (s2 : RecvState),
        onControl s .fileCompleteMsg ≠ .incompleteError r e s2 := by
  constructor
  · simp [onControl, h]
  · intro r e s2
    simp [onControl, h]

/-- Witness for C10: two data bytes were received but no metadata; processing
`file-complete` reaches the null-metadata dereference rather than the
incomplete-transfer error. -/
theorem c10_complete_before_meta_witness :
    onControl (onFileChunk ⟨none, [], 0⟩ [7, 8]) .fileCompleteMsg = .nullMetaAccess
    ∧ onControl (onFileChunk ⟨none, [], 0⟩ [7, 8]) .fileCompleteMsg
      ≠ .incompleteError 2 0 (onFileChunk ⟨none, [], 0⟩ [7, 8]) :=
  ⟨(c10_complete_before_meta (onFileChunk ⟨none, [], 0⟩ [7, 8]) rfl).1,
   (c10_complete_before_meta (onFileChunk ⟨none, [], 0⟩ [7, 8]) rfl).2 2 0 _⟩

/-! ### Sender state machine (src/public/js sender module)

`sendFileData` runs a queuing loop (`sendNextChunk`) followed by a drain wait
(`waitForDrain`). Each loop iteration reads `fileChannel.bufferedAmount`
(the channel's outstanding-unsent-byte counter): above the high-water mark it
sets `bufferedAmountLowThreshold` to the low-water mark, arms a one-shot
`onbufferedamountlow` callback, and returns; otherwise it queues the next
`CHUNK_SIZE` slice. When `offset` reaches the file size the loop falls
through to `waitForDrain`, which polls the counter every 100 ms and sends
`file-complete` on the control channel only when it reads exactly zero.

The counter's evolution is driven by the environment: a `poll buf` event is
one read of `bufferedAmount` (one loop iteration or one drain poll), and
`lowFired buf` is the platform firing the armed low-water callback, which the
WebRTC runtime does when the counter decreases below the threshold. -/

/-- Sender control-flow position. `paused` records the armed
`bufferedAmountLowThreshold`. -/
inductive SPhase where
  | running
  | paused (threshold : Nat)
  | draining
  | done
deriving DecidableEq, Repr

/-- Sender state: next slice offset plus control-flow phase. -/
structure SState where
  offset : Nat
  phase : SPhase
deriving DecidableEq, Repr

/-- Observable sender actions: queuing the slice `[start, stop)` on the file
channel, or sending `file-complete` on the control channel. -/
inductive SAction where
  | queueChunk (start stop : Nat)
  | fileComplete
deriving DecidableEq, Repr

/-- Environment events: one read of the outstanding-byte counter, or the
firing of the armed low-water callback. -/
inductive SEv where
  | poll (buf : Nat)
  | lowFired (buf : Nat)
deriving DecidableEq, Repr

/-- One step of the sender. In `running`, a poll above the high-water mark
pauses (arming the one-shot callback at the low-water threshold) and queues
nothing; a poll at or below it queues the next chunk; once `offset` reaches
the file size the loop exits into the drain wait. In `draining`, a poll
sends `file-complete` exactly when the counter reads zero. In `paused`, only
the low-water callback resumes the loop; polls change nothing and queue
nothing. -/
def senderStep (size : Nat) (s : SState) (e : SEv) : SState × List SAction :=
  match s.phase, e with
  | .running, .poll buf =>
    if s.offset < size then
      if HIGH_WATER_MARK < buf then
        ({ s with phase := .paused LOW_WATER_MARK }, [])
      else
        let stop := min (s.offset + CHUNK_SIZE) size
        (⟨stop, .running⟩, [.queueChunk s.offset stop])
    else
      (⟨s.offset, .draining⟩, [])
  | .draining, .poll buf =>
    if buf = 0 then ({ s with phase := .done }, [.fileComplete]) else (s, [])
  | .paused _, .lowFired _ => ({ s with phase := .running }, [])
  | _, _ => (s, [])

/-- The sender started on a file of `size` bytes: offset 0, queuing loop
about to run. -/
def initSender : SState := ⟨0, .running⟩

/-- Fold `senderStep` over an event list, collecting emitted actions. -/
def runSender (size : Nat) (s : SState) : List SEv → SState × List SAction
  | [] => (s, [])
  | e :: es =>
    let p := senderStep size s e
    let q := runSender size p.1 es
    (q.1, p.2 ++ q.2)

/-- Sender invariant: the offset never passes the file size, and the drain /
done phases are entered only with every byte of the file already queued. -/
def SenderInv (size : Nat) (s : SState) : Prop :=
  s.offset ≤ size ∧ ((s.phase = .draining ∨ s.phase = .done) → s.offset = size)

lemma senderStep_run_poll (size off buf : Nat) :
    senderStep size ⟨off, .running⟩ (.poll buf) =
      if off < size then
        if HIGH_WATER_MARK < buf then (⟨off, .paused LOW_WATER_MARK⟩, [])
        else (⟨min (off + CHUNK_SIZE) size, .running⟩,
              [.queueChunk off (min (off + CHUNK_SIZE) size)])
      else (⟨off, .draining⟩, []) := rfl

lemma senderStep_run_low (size off buf : Nat) :
    senderStep size ⟨off, .running⟩ (.lowFired buf) = (⟨off, .running⟩, []) := rfl

lemma senderStep_drain_poll (size off buf : Nat) :
    senderStep size ⟨off, .draining⟩ (.poll buf) =
      if buf = 0 then (⟨off, .done⟩, [.fileComplete]) else (⟨off, .draining⟩, []) := rfl

lemma senderStep_drain_low (size off buf : Nat) :
    senderStep size ⟨off, .draining⟩ (.lowFired buf) = (⟨off, .draining⟩, []) := rfl

lemma senderStep_paused_poll (size off t buf : Nat) :
    senderStep size ⟨off, .paused t⟩ (.poll buf) = (⟨off, .paused t⟩, []) := rfl

lemma senderStep_paused_low (size off t buf : Nat) :
    senderStep size ⟨off, .paused t⟩ (.lowFired buf) = (⟨off, .running⟩, []) := rfl

lemma senderStep_done_poll (size off buf : Nat) :
    senderStep size ⟨off, .done⟩ (.poll buf) = (⟨off, .done⟩, []) := rfl

lemma senderStep_done_low (size off buf : Nat) :
    senderStep size ⟨off, .done⟩ (.lowFired buf) = (⟨off, .done⟩, []) := rfl

lemma senderStep_inv (size : Nat) (s : SState) (e : SEv)
    (h : SenderInv size s) : SenderInv size ((senderStep size s e).1) := by
  obtain ⟨h1, h2⟩ := h
  obtain ⟨off, ph⟩ := s
  cases ph with
  | running =>
    cases e with
    | poll buf =>
      rw [senderStep_run_poll]
      by_cases ho : off < size
      · by_cases hb : HIGH_WATER_MARK < buf
        · rw [if_pos ho, if_pos hb]
          exact ⟨h1, by simp⟩
        · rw [if_pos ho, if_neg hb]
          exact ⟨min_le_right _ _, by simp⟩
      · rw [if_neg ho]
        exact ⟨h1, fun _ => le_antisymm h1 (not_lt.mp ho)⟩
    | lowFired buf => rw [senderStep_run_low]; exact ⟨h1, by simp⟩
  | paused t =>
    cases e with
    | poll buf => rw [senderStep_paused_poll]; exact ⟨h1, by simp⟩
    | lowFired buf => rw [senderStep_paused_low]; exact ⟨h1, by simp⟩
  | draining =>
    cases e with
    | poll buf =>
      rw [senderStep_drain_poll]
      by_cases hb0 : buf = 0
      · rw [if_pos hb0]
        exact ⟨h1, fun _ => h2 (Or.inl rfl)⟩
      · rw [if_neg hb0]
        exact ⟨h1, fun _ => h2 (Or.inl rfl)⟩
    | lowFired buf =>
      rw [senderStep_drain_low]
      exact ⟨h1, fun _ => h2 (Or.inl rfl)⟩
  | done =>
    cases e with
    | poll buf =>
      rw [senderStep_done_poll]
      exact ⟨h1, fun _ => h2 (Or.inr rfl)⟩
    | lowFired buf =>
      rw [senderStep_done_low]
      exact ⟨h1, fun _ => h2 (Or.inr rfl)⟩

lemma runSender_inv (size : Nat) (evs : List SEv) :
    ∀ s : SState, SenderInv size s → SenderInv size ((runSender size s evs).1) := by
  induction evs with
  | nil => intro s h; simpa [runSender] using h
  | cons e es ih =>
    intro s h
    simpa [runSender] using ih _ (senderStep_inv size s e h)

lemma senderStep_fileComplete (size : Nat) (s : SState) (e : SEv)
    (h : SAction.fileComplete ∈ (senderStep size s e).2) :
    s.phase = .draining ∧ e = .poll 0 := by
  obtain ⟨off, ph⟩ := s
  cases ph with
  | running =>
    cases e with
    | poll buf =>
      rw [senderStep_run_poll] at h
      by_cases ho : off < size
      · by_cases hb : HIGH_WATER_MARK < buf
        · rw [if_pos ho, if_pos hb] at h; simp at h
        · rw [if_pos ho, if_neg hb] at h; simp at h
      · rw [if_neg ho] at h; simp at h
    | lowFired buf => rw [senderStep_run_low] at h; simp at h
  | paused t =>
    cases e with
    | poll buf => rw [senderStep_paused_poll] at h; simp at h
    | lowFired buf => rw [senderStep_paused_low] at h; simp at h
  | draining =>
    cases e with
    | poll buf =>
      by_cases hb0 : buf = 0
      · exact ⟨rfl, by rw [hb0]⟩
      · rw [senderStep_drain_poll, if_neg hb0] at h; simp at h
    | lowFired buf => rw [senderStep_drain_low] at h; simp at h
  | done =>
    cases e with
    | poll buf => rw [senderStep_done_poll] at h; simp at h
    | lowFired buf => rw [senderStep_done_low] at h; simp at h

/-- Claim C3: in every run of the sender, a `file-complete` control message
is emitted only by a drain-wait poll that read the outstanding-unsent-byte
counter as exactly zero, and only after the final chunk was queued (the
offset equals the file size at that point). -/
theorem c3_complete_only_after_drain (size : Nat) (evs : List SEv) (e : SEv)
    (h : SAction.fileComplete ∈ (senderStep size (runSender size initSender evs).1 e).2) :
    e = .poll 0 ∧ (runSender size initSender evs).1.offset = size := by
  have hinv : SenderInv size ((runSender size initSender evs).1) :=
    runSender_inv size evs initSender ⟨Nat.zero_le _, by simp [initSender]⟩
  have hc := senderStep_fileComplete size _ e h
  exact ⟨hc.2, hinv.2 (Or.inl hc.1)⟩

/-- Witness for C3: a 3-byte file; the single chunk is queued, the loop exits
into the drain wait, a poll reading 7 outstanding bytes sends nothing, and
the poll reading zero emits `file-complete`. -/
theorem c3_complete_only_after_drain_witness :
    SAction.fileComplete ∈
      (senderStep 3 (runSender 3 initSender [.poll 0, .poll 7]).1 (.poll 0)).2
    ∧ ((SEv.poll 0 : SEv) = .poll 0
      ∧ (runSender 3 initSender [.poll 0, .poll 7]).1.offset = 3) :=
  ⟨by decide, c3_complete_only_after_drain 3 [.poll 0, .poll 7] (.poll 0) (by decide)⟩

/-- Claim C4: whenever a queuing-loop poll reads the outstanding-byte counter
above the 1 MiB high-water mark (with file bytes still left to queue), the
sender queues nothing and arms the one-shot low-water callback with the
256 KiB threshold; while paused, every further counter reading queues nothing
and leaves the pause in place; the only transition out of the pause is the
armed callback firing, after which queuing resumes. -/
theorem c4_backpressure (size off t buf : Nat) :
    (off < size → HIGH_WATER_MARK < buf →
      senderStep size ⟨off, .running⟩ (.poll buf)
        = (⟨off, .paused LOW_WATER_MARK⟩, []))
    ∧ senderStep size ⟨off, .paused t⟩ (.poll buf) = (⟨off, .paused t⟩, [])
    ∧ senderStep size ⟨off, .paused t⟩ (.lowFired buf) = (⟨off, .running⟩, [])
    ∧ HIGH_WATER_MARK = 1048576 ∧ LOW_WATER_MARK = 262144 := by
  refine ⟨?_, rfl, rfl, rfl, rfl⟩
  intro h1 h2
  simp [senderStep, h1, h2]

/-- Witness for C4: with 16 KiB of a 10 MiB file already queued and
1 MiB + 1 outstanding bytes observed, the sender pauses with the 256 KiB
threshold armed; further polls queue nothing; the callback resumes. -/
theorem c4_backpressure_witness :
    (senderStep 10485760 ⟨16384, .running⟩ (.poll 1048577)
      = (⟨16384, .paused LOW_WATER_MARK⟩, []))
    ∧ senderStep 10485760 ⟨16384, .paused 262144⟩ (.poll 999999)
      = (⟨16384, .paused 262144⟩, [])
    ∧ senderStep 10485760 ⟨16384, .paused 262144⟩ (.lowFired 100000)
      = (⟨16384, .running⟩, [])
    ∧ HIGH_WATER_MARK = 1048576 ∧ LOW_WATER_MARK = 262144 :=
  ⟨(c4_backpressure 10485760 16384 262144 1048577).1 (by decide) (by decide),
   (c4_backpressure 10485760 16384 262144 999999).2.1,
   (c4_backpressure 10485760 16384 262144 100000).2.2.1,
   (c4_backpressure 10485760 16384 262144 100000).2.2.2⟩

/-! ### Credential cache (src/worker.js `fetchCloudflareTurn` and the `/ice`
handler)

The module-global cache `(iceCache, iceCacheTime)` becomes an explicit state.
`hasKeys` is whether `CF_TURN_KEY_ID` / `CF_TURN_KEY_SECRET` are set — fixed
deployment configuration. The issuer call's outcome is an input: `some
servers` for a successful response, `none` for any failure (non-ok status or
thrown error, both of which the source turns into a `null` return via its
try/catch). Each function also reports how many issuer calls it attempted. -/

/-- Cached credential set and its fetch timestamp; `iceCache = none` models
the initial `null`. -/
structure IceState where
  iceCache : Option (List String)
  iceCacheTime : Nat
deriving DecidableEq, Repr

/-- Worker start: `iceCache = null`, `iceCacheTime = 0`. -/
def initIce : IceState := ⟨none, 0⟩

/-- The try/catch refresh body of `fetchCloudflareTurn`: on success store and
return the new list (one issuer call); on failure return `null` leaving the
cache untouched (still one attempted issuer call, never a raised error). -/
def turnRefresh (now : Nat) (issuer : Option (List String)) (s : IceState) :
    Option (List String) × IceState × Nat :=
  match issuer with
  | some servers => (some servers, ⟨some servers, now⟩, 1)
  | none => (none, s, 1)

/-- `fetchCloudflareTurn`: without keys, return `null` at once; with a cached
set fresher than the 23 h TTL, return it unchanged without any issuer call;
otherwise refresh. -/
def fetchCloudflareTurn (hasKeys : Bool) (now : Nat) (issuer : Option (List String))
    (s : IceState) : Option (List String) × IceState × Nat :=
  if hasKeys = false then (none, s, 0)
  else
    match s.iceCache with
    | some c =>
      if now - s.iceCacheTime < ICE_CACHE_TTL then (some c, s, 0)
      else turnRefresh now issuer s
    | none => turnRefresh now issuer s

/-- The `GET /ice` handler of src/worker.js: serve the fetched list, or the
hard-coded STUN-only fallback when the fetch produced `null`. -/
def iceHandler (hasKeys : Bool) (now : Nat) (issuer : Option (List String))
    (s : IceState) : List String × IceState × Nat :=
  let r := fetchCloudflareTurn hasKeys now issuer s
  (r.1.getD FALLBACK_ICE, r.2.1, r.2.2)

/-! ### Credential cache behaviour (claim C8) -/

/-- Counterexample to claim C8 as stated: with the issuer keys unset (an
explicitly handled configuration, src/worker.js line 29) and the cache absent,
a call attempts zero refreshes — not exactly one — even though an issuer
response would have been available. -/
theorem c8_counterexample :
    initIce.iceCache = none
    ∧ (fetchCloudflareTurn false 5 (some ["turn:x"]) initIce).2.2 = 0 :=
  ⟨rfl, rfl⟩

/-- Claim C8 amended: provided the issuer keys are configured, a call made
while a cached set exists and `now − fetchedAt` is under the TTL returns the
cached set unchanged with no issuer call; when the cache is absent or expired
exactly one refresh is attempted, and if it fails the `/ice` caller receives
the hard-coded STUN-only fallback with the cache untouched (the failure is
swallowed, never raised). When the keys are unset, no refresh is ever
attempted and the fallback is served directly. -/
theorem c8_cache_ttl (now : Nat) (issuer : Option (List String)) (s : IceState)
    (c : List String) :
    (s.iceCache = some c → now - s.iceCacheTime < ICE_CACHE_TTL →
      fetchCloudflareTurn true now issuer s = (some c, s, 0))
    ∧ (s.iceCache = none →
      (fetchCloudflareTurn true now issuer s).2.2 = 1
      ∧ (issuer = none → iceHandler true now issuer s = (FALLBACK_ICE, s, 1)))
    ∧ (s.iceCache = some c → ¬ (now - s.iceCacheTime < ICE_CACHE_TTL) →
      (fetchCloudflareTurn true now issuer s).2.2 = 1
      ∧ (issuer = none → iceHandler true now issuer s = (FALLBACK_ICE, s, 1)))
    ∧ fetchCloudflareTurn false now issuer s = (none, s, 0)
    ∧ iceHandler false now issuer s = (FALLBACK_ICE, s, 0) := by
  refine ⟨?_, ?_, ?_, rfl, rfl⟩
  · intro hc hf
    simp [fetchCloudflareTurn, hc, hf]
  · intro hc
    constructor
    · cases issuer <;> simp [fetchCloudflareTurn, turnRefresh, hc]
    · intro hi
      simp [iceHandler, fetchCloudflareTurn, turnRefresh, hc, hi]
  · intro hc hf
    constructor
    · cases issuer <;> simp [fetchCloudflareTurn, turnRefresh, hc, hf]
    · intro hi
      simp [iceHandler, fetchCloudflareTurn, turnRefresh, hc, hf, hi]

/-- Witness for C8 amended: a fresh cached set is served unchanged with zero
issuer calls; from the empty cache a failing refresh is attempted once and
the `/ice` response is the STUN-only fallback. -/
theorem c8_cache_ttl_witness :
    fetchCloudflareTurn true 10 none ⟨some ["turn:a"], 5⟩
      = (some ["turn:a"], ⟨some ["turn:a"], 5⟩, 0)
    ∧ (fetchCloudflareTurn true 10 none initIce).2.2 = 1
    ∧ iceHandler true 10 none initIce = (FALLBACK_ICE, initIce, 1) :=
  ⟨(c8_cache_ttl 10 none ⟨some ["turn:a"], 5⟩ ["turn:a"]).1 rfl (by decide),
   ((c8_cache_ttl 10 none initIce []).2.1 rfl).1,
   ((c8_cache_ttl 10 none initIce []).2.1 rfl).2 rfl⟩

/-! ### Usage guard (src/usage-guard.js and the src worker variant with the
`/ice` overLimit gate)

The Durable Object's persisted `usageCache` record becomes the state; the
analytics query outcome is an input (`some buckets` giving the per-bucket
byte counts, `none` for any failure). JS float arithmetic is modelled over
`Rat`. -/

/-- Persisted usage snapshot: `(usageGB, fetchedAt)` under the singleton key,
or `none` if never written. -/
structure GuardState where
  usageCache : Option (Rat × Nat)
deriving DecidableEq, Repr

/-- The `/check` response body. -/
structure GuardResp where
  overLimit : Bool
  usageGB : Rat
  cached : Bool
  errored : Bool
deriving DecidableEq, Repr

/-- The analytics fetch + catch fallback of `UsageGuard.fetch`: on success sum
the byte buckets, convert to GB, persist and answer `cached=false`; on failure
answer from the stale snapshot (zero usage if none) with the error flagged,
never failing the caller. Returns the response, the new state, and the number
of analytics calls made. -/
def guardRefresh (s : GuardState) (now : Nat) (analytics : Option (List Nat)) :
    GuardResp × GuardState × Nat :=
  match analytics with
  | some buckets =>
    let usageGB : Rat := (buckets.sum : Rat) / ((1024 : Rat) ^ 3)
    (⟨decide (TURN_MONTHLY_LIMIT_GB ≤ usageGB), usageGB, false, false⟩,
     ⟨some (usageGB, now)⟩, 1)
  | none =>
    let u : Rat := (s.usageCache.map Prod.fst).getD 0
    (⟨decide (TURN_MONTHLY_LIMIT_GB ≤ u), u, true, true⟩, s, 1)

/-- The `POST /check` handler of `UsageGuard.fetch`: answer from the snapshot
when it is fresher than the 1 h TTL, otherwise refresh. -/
def usageCheck (s : GuardState) (now : Nat) (analytics : Option (List Nat)) :
    GuardResp × GuardState × Nat :=
  match s.usageCache with
  | some (u, t) =>
    if now - t < CACHE_TTL_MS then
      (⟨decide (TURN_MONTHLY_LIMIT_GB ≤ u), u, true, false⟩, s, 0)
    else guardRefresh s now analytics
  | none => guardRefresh s now analytics

/-- The `GET /ice` handler of the worker variant with the usage gate:
`const cfTurn = overLimit ? null : await fetchCloudflareTurn(env)` followed by
`cfTurn || FALLBACK_ICE`. -/
def iceHandlerGuarded (overLimit : Bool) (hasKeys : Bool) (now : Nat)
    (issuer : Option (List String)) (s : IceState) : List String × IceState × Nat :=
  if overLimit then (FALLBACK_ICE, s, 0)
  else iceHandler hasKeys now issuer s

/-- Claim C9: every `/check` response reports `overLimit` true exactly when
its reported `usageGB` is at least the 900 GB monthly limit, in the cached,
refreshed and failure branches alike; and whenever the guard reports
`overLimit = true`, the `/ice` handler attempts no TURN issuer fetch and
serves the STUN-only fallback whatever the credential cache's TTL state. -/
theorem c9_usage_guard_gate :
    (∀ (s : GuardState) (now : Nat) (analytics : Option (List Nat)),
      (usageCheck s now analytics).1.overLimit
        = decide (TURN_MONTHLY_LIMIT_GB ≤ (usageCheck s now analytics).1.usageGB))
    ∧ (∀ (hasKeys : Bool) (now : Nat) (issuer : Option (List String)) (s : IceState),
      iceHandlerGuarded true hasKeys now issuer s = (FALLBACK_ICE, s, 0))
    ∧ TURN_MONTHLY_LIMIT_GB = 900 := by
  refine ⟨?_, fun _ _ _ _ => rfl, rfl⟩
  intro s now analytics
  obtain ⟨cache⟩ := s
  cases cache with
  | none => cases analytics <;> simp [usageCheck, guardRefresh]
  | some ut =>
    obtain ⟨u, t⟩ := ut
    by_cases hf : now - t < CACHE_TTL_MS
    · simp [usageCheck, hf]
    · cases analytics <;> simp [usageCheck, guardRefresh, hf]

end Send
